import Mathlib

/-!
Shallow embedding of the esp01 ESP8266 AT-command driver (src/src/lib.rs and
src/src/timing.rs) and proofs about it.

Machine bytes (`u8`) are modelled as `Nat`, buffers and transmitted data as
`List Nat`.  The driver's generic error parameters (`Rx::Error`, `Tx::Error`,
`Rst::Error`) stay type parameters `R T P`.  Fallible operations return
`Except`.  Operations of the external capabilities (serial transport, timer)
that the driver consumes are supplied as oracle arguments.
-/

namespace Esp01

/-- Bytes of a (pure-ASCII) string literal, used to transcribe the byte-string
literals of the source. -/
def str_bytes (s : String) : List Nat :=
  s.data.map Char.toNat

/-- Possible responses from an esp8266 AT command (`ATResponse` in lib.rs). -/
inductive ATResponse where
  | Ok
  | Error
  | Busy
  | WiFiGotIp
deriving DecidableEq, Repr

/-- Maximum length of an AT response: length of the longest message,
WIFI GOT IP plus CRLF (`AT_RESPONSE_BUFFER_SIZE` in lib.rs). -/
def AT_RESPONSE_BUFFER_SIZE : Nat := 13

/-- Embedding of `compare_circular_buffer` (lib.rs lines 404-421): compares the
content of a circular buffer with another buffer, from the back, over the
shared `min` length.  `offset` is the index of the first (oldest) byte of the
circular buffer.  Out-of-range reads cannot occur (the index is reduced
modulo the length), so `getD` with default 0 coincides with Rust indexing. -/
def compare_circular_buffer (circular_buffer : List Nat) (offset : Nat)
    (comparison : List Nat) : Bool :=
  let comparison_length := min circular_buffer.length comparison.length
  (List.range comparison_length).all (fun i =>
    let circular_index :=
      (circular_buffer.length + offset - 1 - i) % circular_buffer.length
    let comparison_index := comparison.length - 1 - i
    circular_buffer.getD circular_index 0 == comparison.getD comparison_index 0)

/-- The bytes of the circular buffer read in circular order, ending at index
`offset - 1` (mod length): the `n` most recently written bytes.  This is a
specification-side definition, following the spec's words for the
tail-anchored matcher. -/
def circular_tail (buffer : List Nat) (offset n : Nat) : List Nat :=
  (List.range n).map
    (fun j => buffer.getD ((buffer.length + offset - n + j) % buffer.length) 0)

/-- Specification-side tail match: the last `min (length buffer) (length
pattern)` bytes of the circular buffer, in circular order ending at
`offset - 1`, equal the corresponding suffix of the pattern. -/
def tail_matches_spec (buffer : List Nat) (offset : Nat)
    (pattern : List Nat) : Prop :=
  circular_tail buffer offset (min buffer.length pattern.length) =
    pattern.drop (pattern.length - min buffer.length pattern.length)

instance (buffer : List Nat) (offset : Nat) (pattern : List Nat) :
    Decidable (tail_matches_spec buffer offset pattern) := by
  unfold tail_matches_spec
  exact inferInstance

lemma getD_map_range (f : Nat → Nat) (n j : Nat) (h : j < n) :
    ((List.range n).map f).getD j 0 = f j := by
  rw [List.getD_eq_getElem?_getD, List.getElem?_map, List.getElem?_range h]
  rfl

lemma getD_drop_eq (l : List Nat) (i j : Nat) :
    (l.drop i).getD j 0 = l.getD (i + j) 0 := by
  rw [List.getD_eq_getElem?_getD, List.getD_eq_getElem?_getD, List.getElem?_drop]

/-- Unfolding of the matcher into an elementwise condition over the shared
length, indexed from the back. -/
lemma compare_circular_buffer_eq_true_iff_back (cb : List Nat) (offset : Nat)
    (pat : List Nat) :
    compare_circular_buffer cb offset pat = true ↔
      ∀ i < min cb.length pat.length,
        cb.getD ((cb.length + offset - 1 - i) % cb.length) 0 =
          pat.getD (pat.length - 1 - i) 0 := by
  simp [compare_circular_buffer, List.all_eq_true, List.mem_range]

/-- Unfolding of the specification-side tail match into an elementwise
condition over the shared length, indexed from the front of the tail. -/
lemma tail_matches_spec_iff_forward (cb : List Nat) (offset : Nat)
    (pat : List Nat) :
    tail_matches_spec cb offset pat ↔
      ∀ j < min cb.length pat.length,
        cb.getD ((cb.length + offset - min cb.length pat.length + j)
            % cb.length) 0 =
          pat.getD (pat.length - min cb.length pat.length + j) 0 := by
  have hnP : min cb.length pat.length ≤ pat.length := min_le_right _ _
  have hdroplen : (pat.drop (pat.length - min cb.length pat.length)).length =
      min cb.length pat.length := by
    simp [List.length_drop]
    omega
  have htaillen : (circular_tail cb offset (min cb.length pat.length)).length =
      min cb.length pat.length := by
    simp [circular_tail]
  constructor
  · intro h j hj
    have := congrArg (fun l => l.getD j 0) h
    simp only [circular_tail] at this
    rw [getD_map_range _ _ _ hj, getD_drop_eq] at this
    exact this
  · intro h
    unfold tail_matches_spec
    apply List.ext_getElem (by rw [htaillen, hdroplen])
    intro j h1 h2
    rw [htaillen] at h1
    have e1 : (circular_tail cb offset (min cb.length pat.length)).getD j 0 =
        cb.getD ((cb.length + offset - min cb.length pat.length + j)
          % cb.length) 0 := by
      unfold circular_tail
      exact getD_map_range _ _ _ h1
    have e2 : (pat.drop (pat.length - min cb.length pat.length)).getD j 0 =
        pat.getD (pat.length - min cb.length pat.length + j) 0 :=
      getD_drop_eq _ _ _
    have hges := h j h1
    rw [← e1, ← e2] at hges
    have g1 := (circular_tail cb offset (min cb.length pat.length)).getD_eq_getElem 0 (by rw [htaillen]; exact h1)
    have g2 := (pat.drop (pat.length - min cb.length pat.length)).getD_eq_getElem 0 (by rw [hdroplen]; exact h1)
    rw [g1, g2] at hges
    exact hges

/-- The matcher agrees with the specification-side tail match whenever the
circular buffer is nonempty. -/
lemma compare_iff_tail_matches (cb : List Nat) (offset : Nat) (pat : List Nat) :
    compare_circular_buffer cb offset pat = true ↔
      tail_matches_spec cb offset pat := by
  rw [compare_circular_buffer_eq_true_iff_back, tail_matches_spec_iff_forward]
  have hnL : min cb.length pat.length ≤ cb.length := min_le_left _ _
  have hnP : min cb.length pat.length ≤ pat.length := min_le_right _ _
  constructor
  · intro h j hj
    have hi : min cb.length pat.length - 1 - j < min cb.length pat.length := by
      omega
    have := h (min cb.length pat.length - 1 - j) hi
    have eidx : cb.length + offset - 1 - (min cb.length pat.length - 1 - j) =
        cb.length + offset - min cb.length pat.length + j := by omega
    have eidx2 : pat.length - 1 - (min cb.length pat.length - 1 - j) =
        pat.length - min cb.length pat.length + j := by omega
    rwa [eidx, eidx2] at this
  · intro h i hi
    have hj : min cb.length pat.length - 1 - i < min cb.length pat.length := by
      omega
    have := h (min cb.length pat.length - 1 - i) hj
    have eidx : cb.length + offset - min cb.length pat.length +
        (min cb.length pat.length - 1 - i) = cb.length + offset - 1 - i := by
      omega
    have eidx2 : pat.length - min cb.length pat.length +
        (min cb.length pat.length - 1 - i) = pat.length - 1 - i := by omega
    rwa [eidx, eidx2] at this

/-- C1: for every byte buffer, every offset less than the buffer length, and
every comparison pattern, `compare_circular_buffer` returns true if and only
if the last `min (length buffer) (length pattern)` bytes of the circular
buffer, read in circular order ending at index `offset - 1`, equal the
corresponding suffix of the pattern. -/
theorem compare_circular_buffer_correct (buffer : List Nat) (offset : Nat)
    (pattern : List Nat) (h : offset < buffer.length) :
    compare_circular_buffer buffer offset pattern = true ↔
      tail_matches_spec buffer offset pattern :=
  compare_iff_tail_matches buffer offset pattern

/-- Witness for C1 at a concrete input: the buffer `[75, 13, 10, 79]` with
offset 3 holds the bytes of OK followed by CRLF as its circular tail. -/
theorem compare_circular_buffer_correct_witness :
    3 < (([75, 13, 10, 79] : List Nat)).length ∧
      (compare_circular_buffer [75, 13, 10, 79] 3 (str_bytes "OK\r\n") = true ↔
        tail_matches_spec [75, 13, 10, 79] 3 (str_bytes "OK\r\n")) :=
  ⟨by decide, compare_circular_buffer_correct [75, 13, 10, 79] 3
    (str_bytes "OK\r\n") (by decide)⟩

/-- Embedding of `parse_at_response` (lib.rs lines 375-391): parses the ring
buffer as an AT command response, trying the four known terminal patterns in
the source's fixed order. -/
def parse_at_response (buffer : List Nat) (offset : Nat) : Option ATResponse :=
  if compare_circular_buffer buffer offset (str_bytes "OK\r\n") then
    some ATResponse.Ok
  else if compare_circular_buffer buffer offset (str_bytes "ERROR\r\n") then
    some ATResponse.Error
  else if compare_circular_buffer buffer offset (str_bytes "busy p...\r\n") then
    some ATResponse.Busy
  else if compare_circular_buffer buffer offset (str_bytes "WIFI GOT IP\r\n") then
    some ATResponse.WiFiGotIp
  else
    none

/-- The byte pattern recognised for each terminal response. -/
def pattern_of : ATResponse → List Nat
  | ATResponse.Ok => str_bytes "OK\r\n"
  | ATResponse.Error => str_bytes "ERROR\r\n"
  | ATResponse.Busy => str_bytes "busy p...\r\n"
  | ATResponse.WiFiGotIp => str_bytes "WIFI GOT IP\r\n"

/-- The third-from-last byte of each pattern.  These four bytes (K, R, dot, P)
are pairwise distinct, which makes the four patterns mutually exclusive as
tail matches on a buffer at least as long as each pattern. -/
def third_from_last : ATResponse → Nat
  | ATResponse.Ok => 75
  | ATResponse.Error => 82
  | ATResponse.Busy => 46
  | ATResponse.WiFiGotIp => 80

/-- A successful tail match on a 13-byte buffer pins down the byte three
positions before the write offset to the pattern's third-from-last byte. -/
lemma compare_third_from_last (buffer : List Nat) (offset : Nat)
    (r : ATResponse) (hlen : buffer.length = 13)
    (h : compare_circular_buffer buffer offset (pattern_of r) = true) :
    buffer.getD ((buffer.length + offset - 1 - 2) % buffer.length) 0 =
      third_from_last r := by
  rw [compare_circular_buffer_eq_true_iff_back] at h
  cases r
  · exact (h 2 (by rw [hlen]; decide)).trans (by decide)
  · exact (h 2 (by rw [hlen]; decide)).trans (by decide)
  · exact (h 2 (by rw [hlen]; decide)).trans (by decide)
  · exact (h 2 (by rw [hlen]; decide)).trans (by decide)

/-- On a 13-byte buffer, at most one of the four terminal patterns can tail
match at a given offset. -/
lemma compare_unique (buffer : List Nat) (offset : Nat) (r₁ r₂ : ATResponse)
    (hlen : buffer.length = 13)
    (h₁ : compare_circular_buffer buffer offset (pattern_of r₁) = true)
    (h₂ : compare_circular_buffer buffer offset (pattern_of r₂) = true) :
    r₁ = r₂ := by
  have e₁ := compare_third_from_last buffer offset r₁ hlen h₁
  have e₂ := compare_third_from_last buffer offset r₂ hlen h₂
  have e : third_from_last r₁ = third_from_last r₂ := by rw [← e₁, ← e₂]
  cases r₁ <;> cases r₂ <;> first
    | rfl
    | exact absurd e (by decide)

/-- The fixed priority order in which the classifier tries the patterns. -/
def at_patterns : List ATResponse :=
  [ATResponse.Ok, ATResponse.Error, ATResponse.Busy, ATResponse.WiFiGotIp]

/-- Generalisation of the classifier to an arbitrary trial order: return the
first response of `order` whose pattern tail-matches the buffer. -/
def classify_with (order : List ATResponse) (buffer : List Nat)
    (offset : Nat) : Option ATResponse :=
  order.find? (fun r => compare_circular_buffer buffer offset (pattern_of r))

/-- The source's if chain is the classifier run on the source's fixed order. -/
lemma parse_eq_classify (buffer : List Nat) (offset : Nat) :
    parse_at_response buffer offset =
      classify_with at_patterns buffer offset := by
  unfold parse_at_response classify_with at_patterns
  by_cases c1 :
      compare_circular_buffer buffer offset (str_bytes "OK\r\n") = true <;>
  by_cases c2 :
      compare_circular_buffer buffer offset (str_bytes "ERROR\r\n") = true <;>
  by_cases c3 :
      compare_circular_buffer buffer offset (str_bytes "busy p...\r\n") = true <;>
  by_cases c4 :
      compare_circular_buffer buffer offset (str_bytes "WIFI GOT IP\r\n") = true <;>
    simp [c1, c2, c3, c4, pattern_of, List.find?]

/-- A list search is insensitive to permutation when the predicate holds for
at most one value. -/
lemma find?_perm_of_unique {α : Type} (p : α → Bool) {l l' : List α}
    (hp : l.Perm l')
    (huniq : ∀ a b, p a = true → p b = true → a = b) :
    l.find? p = l'.find? p := by
  cases h1 : l.find? p with
  | none =>
    rw [List.find?_eq_none] at h1
    rw [eq_comm, List.find?_eq_none]
    intro a ha
    exact h1 a (hp.symm.subset ha)
  | some a =>
    have pa := List.find?_some h1
    have ha := List.mem_of_find?_eq_some h1
    cases h2 : l'.find? p with
    | none =>
      rw [List.find?_eq_none] at h2
      exact absurd pa (h2 a (hp.subset ha))
    | some b =>
      have pb := List.find?_some h2
      rw [huniq a b pa pb]

/-- Every terminal response appears in the source's trial order. -/
lemma mem_at_patterns (r : ATResponse) : r ∈ at_patterns := by
  cases r <;> simp [at_patterns]

/-- Success of `parse_at_response` is exactly a tail match of the returned
variant's pattern. -/
lemma parse_some_iff_compare (buffer : List Nat) (offset : Nat)
    (hlen : buffer.length = 13) (r : ATResponse) :
    parse_at_response buffer offset = some r ↔
      compare_circular_buffer buffer offset (pattern_of r) = true := by
  rw [parse_eq_classify]
  unfold classify_with
  constructor
  · intro h
    have hp := List.find?_some h
    simpa using hp
  · intro h
    have hne : (at_patterns.find?
        (fun r => compare_circular_buffer buffer offset (pattern_of r))).isSome := by
      rw [List.find?_isSome]
      exact ⟨r, mem_at_patterns r, h⟩
    obtain ⟨r', hr'⟩ := Option.isSome_iff_exists.mp hne
    have pr' := List.find?_some hr'
    rw [hr', compare_unique buffer offset r' r hlen pr' h]

/-- C2: on a 13-byte ring buffer, `parse_at_response` returns `some r` exactly
when the buffer tail matches the byte-exact pattern of `r` (OK, ERROR,
busy p... or WIFI GOT IP, each CRLF-terminated), and returns `none` exactly
when no pattern matches; it never returns a variant whose pattern is absent. -/
theorem parse_at_response_correct (buffer : List Nat) (offset : Nat)
    (hlen : buffer.length = 13) :
    (∀ r, parse_at_response buffer offset = some r ↔
        tail_matches_spec buffer offset (pattern_of r)) ∧
    (parse_at_response buffer offset = none ↔
        ∀ r, ¬ tail_matches_spec buffer offset (pattern_of r)) := by
  have key : ∀ r, parse_at_response buffer offset = some r ↔
      tail_matches_spec buffer offset (pattern_of r) := by
    intro r
    rw [parse_some_iff_compare buffer offset hlen r,
      compare_iff_tail_matches]
  refine ⟨key, ?_, ?_⟩
  · intro h r hr
    rw [← key r] at hr
    rw [hr] at h
    cases h
  · intro h
    cases hp : parse_at_response buffer offset with
    | none => rfl
    | some r => exact absurd ((key r).mp hp) (h r)

/-- Witness for C2: the buffer holding exactly WIFI GOT IP plus CRLF at
offset 0 is classified as `WiFiGotIp`. -/
theorem parse_at_response_correct_witness :
    parse_at_response (str_bytes "WIFI GOT IP\r\n") 0 =
      some ATResponse.WiFiGotIp :=
  ((parse_at_response_correct (str_bytes "WIFI GOT IP\r\n") 0 (by decide)).1
      ATResponse.WiFiGotIp).mpr (by decide)

/-- C10: on the 13-byte response buffer, at most one of the four terminal
patterns tail-matches at any offset, so the classifier's result does not
depend on the fixed order in which the patterns are tried. -/
theorem parse_at_response_order_independent (buffer : List Nat) (offset : Nat)
    (hlen : buffer.length = 13) :
    (∀ r₁ r₂, compare_circular_buffer buffer offset (pattern_of r₁) = true →
        compare_circular_buffer buffer offset (pattern_of r₂) = true →
        r₁ = r₂) ∧
    (∀ order : List ATResponse, order.Perm at_patterns →
        classify_with order buffer offset = parse_at_response buffer offset) := by
  refine ⟨fun r₁ r₂ h₁ h₂ => compare_unique buffer offset r₁ r₂ hlen h₁ h₂, ?_⟩
  intro order hperm
  rw [parse_eq_classify]
  unfold classify_with
  exact find?_perm_of_unique _ hperm
    (fun a b pa pb => compare_unique buffer offset a b hlen pa pb)

/-- Witness for C10: trying the patterns in reverse order classifies a
concrete buffer exactly as the source's order does. -/
theorem parse_at_response_order_independent_witness :
    classify_with
        [ATResponse.WiFiGotIp, ATResponse.Busy, ATResponse.Error, ATResponse.Ok]
        (str_bytes "WIFI GOT IP\r\n") 0 =
      parse_at_response (str_bytes "WIFI GOT IP\r\n") 0 :=
  (parse_at_response_order_independent (str_bytes "WIFI GOT IP\r\n") 0
      (by decide)).2 _ (by decide)

/-- Modelled from the spec: src/serial.rs is not among the sources.  The spec
describes the receive error as "itself split into transport-specific failure
and timeout", and lib.rs matches on `serial::Error::TimedOut`. -/
inductive serial.Error (R : Type) where
  | Hardware (e : R)
  | TimedOut
deriving DecidableEq

/-- Unit error value of core fmt (`fmt::Error` in the source). -/
structure FmtError where
deriving DecidableEq

/-- Unit error value of arrayvec capacity overflow, after `simplify`
(`CapacityError` in the source). -/
structure CapacityError where
deriving DecidableEq

/-- Error type for esp communication (`Error<R, T, P>` in lib.rs lines
44-57). -/
inductive Error (R T P : Type) where
  | TxError (e : T)
  | RxError (e : R)
  | PinError (e : P)
  | UnexpectedResponse (r : ATResponse)
  | Fmt (e : FmtError)
  | Capacity (e : CapacityError)
deriving DecidableEq

/-- Step of the data transmission (`TransmissionStep` in lib.rs). -/
inductive TransmissionStep where
  | Connect
  | Send
  | Close
deriving DecidableEq

/-- Error indicating failure to transmit a message (`TransmissionError` in
lib.rs): an error value paired with the step that produced it. -/
structure TransmissionError (R T P : Type) where
  step : TransmissionStep
  cause : Error R T P
deriving DecidableEq

/-- Embedding of `TransmissionError::try_step` (lib.rs lines 89-98): tag the
error of a fallible result with the given transmission step. -/
def TransmissionError.try_step {R T P RetType : Type}
    (step : TransmissionStep) (cause : Except (Error R T P) RetType) :
    Except (TransmissionError R T P) RetType :=
  cause.mapError (fun e => { step := step, cause := e })

/-- Connection type (`ConnectionType` in lib.rs). -/
inductive ConnectionType where
  | Tcp
  | Udp
deriving DecidableEq

/-- Embedding of `ConnectionType::as_str` (lib.rs lines 106-113). -/
def ConnectionType.as_str : ConnectionType → String
  | ConnectionType.Tcp => "TCP"
  | ConnectionType.Udp => "UDP"

/-- Duration in seconds (`Second` in timing.rs). -/
structure Second where
  val : Nat
deriving DecidableEq

/-- Duration in milliseconds (`Millisecond` in timing.rs). -/
structure Millisecond where
  val : Nat
deriving DecidableEq

/-- Embedding of `From<Second> for Millisecond` (timing.rs lines 90-94). -/
def Second.toMillisecond : Second → Millisecond
  | ⟨duration⟩ => ⟨duration * 1000⟩

/-- Startup timeout constant (lib.rs line 132). -/
def STARTUP_TIMEOUT : Second := ⟨10⟩

/-- Default timeout constant (lib.rs line 133). -/
def DEFAULT_TIMEOUT : Second := ⟨5⟩

/-- Uninhabited error type of the timer wait (core::convert::Infallible;
the `LongTimer::wait` contract in timing.rs returns
`nb::Result<(), Infallible>`). -/
inductive Infallible

/-- Rust `unwrap` on a result whose error type is `Infallible`: a total
function, the error case being unreachable. -/
def unwrap_infallible {α : Type} : Except Infallible α → α
  | Except.ok a => a
  | Except.error e => nomatch e

/-- Modelled from the spec: `serial::write_all` (src/serial.rs is not among
the sources) wraps a whole-slice write around repeated fallible single-byte
writes.  `tx` is the list of bytes written to the wire so far; `txErr i`
gives the outcome of writing byte number `i` of the session (`none` is
success), and the first failing byte aborts the rest of the slice. -/
def write_all {T : Type} (txErr : Nat → Option T) (tx : List Nat) :
    List Nat → List Nat × Except T Unit
  | [] => (tx, Except.ok ())
  | b :: rest =>
    match txErr tx.length with
    | some e => (tx, Except.error e)
    | none => write_all txErr (tx ++ [b]) rest

/-- Embedding of `send_raw` (lib.rs lines 363-368): write a byte slice,
wrapping a transport failure as `TxError`. -/
def send_raw {R T P : Type} (txErr : Nat → Option T) (tx : List Nat)
    (bytes : List Nat) : List Nat × Except (Error R T P) Unit :=
  match write_all txErr tx bytes with
  | (tx', Except.ok ()) => (tx', Except.ok ())
  | (tx', Except.error e) => (tx', Except.error (Error.TxError e))

/-- Sequencing of two wire operations, the `?` operator on state-threading
results: a failure of the first skips the second. -/
def andThen {R T P : Type} (step : List Nat × Except (Error R T P) Unit)
    (next : List Nat → List Nat × Except (Error R T P) Unit) :
    List Nat × Except (Error R T P) Unit :=
  match step with
  | (tx, Except.ok ()) => next tx
  | (tx, Except.error e) => (tx, Except.error e)

/-- Embedding of `send_at_command` (lib.rs lines 300-305): write AT, then the
command text, then CRLF. -/
def send_at_command {R T P : Type} (txErr : Nat → Option T) (tx : List Nat)
    (command : String) : List Nat × Except (Error R T P) Unit :=
  andThen (send_raw txErr tx (str_bytes "AT")) (fun tx1 =>
    andThen (send_raw txErr tx1 (str_bytes command)) (fun tx2 =>
      send_raw txErr tx2 (str_bytes "\r\n")))

/-- Embedding of `wait_for_at_response` (lib.rs lines 307-332).  The response
scanner `serial::read_until_message` lives in src/serial.rs, which is not
among the sources; its outcome is supplied by the oracle `scan`, applied to
the data the source passes the scanner: the size of the fresh stack buffer
(`AT_RESPONSE_BUFFER_SIZE`) and the timeout.  The match on the scanner's
result is the source's. -/
def wait_for_at_response {R T P : Type}
    (scan : Nat → Millisecond → Except (serial.Error R) ATResponse)
    (expected_response : ATResponse) (timeout : Millisecond) :
    Except (Error (serial.Error R) T P) Unit :=
  match scan AT_RESPONSE_BUFFER_SIZE timeout with
  | Except.ok resp =>
    if resp = expected_response then Except.ok ()
    else Except.error (Error.UnexpectedResponse resp)
  | Except.error e => Except.error (Error.RxError e)

/-- Embedding of `wait_for_ok` (lib.rs lines 334-336). -/
def wait_for_ok {R T P : Type}
    (scan : Nat → Millisecond → Except (serial.Error R) ATResponse)
    (timeout : Millisecond) : Except (Error (serial.Error R) T P) Unit :=
  wait_for_at_response scan ATResponse.Ok timeout

/-- Embedding of `wait_for_got_ip` (lib.rs lines 337-339). -/
def wait_for_got_ip {R T P : Type}
    (scan : Nat → Millisecond → Except (serial.Error R) ATResponse)
    (timeout : Millisecond) : Except (Error (serial.Error R) T P) Unit :=
  wait_for_at_response scan ATResponse.WiFiGotIp timeout

/-- C6: for every expected response and timeout, wait_for_ok and
wait_for_got_ip are the generic wait with the matching expected response;
the wait succeeds exactly when the scanned response equals the expected one,
a different terminal response fails with an unexpected-response error
carrying the response actually seen, a scan failure (including timeout) is
propagated as a receive error, and the scan buffer is sized to the longest
known pattern, WIFI GOT IP plus CRLF. -/
theorem wait_for_at_response_correct {R T P : Type}
    (scan : Nat → Millisecond → Except (serial.Error R) ATResponse)
    (expected : ATResponse) (timeout : Millisecond) :
    (wait_for_ok (R := R) (T := T) (P := P) scan timeout =
        wait_for_at_response scan ATResponse.Ok timeout ∧
      wait_for_got_ip (R := R) (T := T) (P := P) scan timeout =
        wait_for_at_response scan ATResponse.WiFiGotIp timeout) ∧
    (wait_for_at_response (R := R) (T := T) (P := P) scan expected timeout =
        Except.ok () ↔
      scan AT_RESPONSE_BUFFER_SIZE timeout = Except.ok expected) ∧
    (∀ other, other ≠ expected →
      scan AT_RESPONSE_BUFFER_SIZE timeout = Except.ok other →
      wait_for_at_response (R := R) (T := T) (P := P) scan expected timeout =
        Except.error (Error.UnexpectedResponse other)) ∧
    (∀ e, scan AT_RESPONSE_BUFFER_SIZE timeout = Except.error e →
      wait_for_at_response (R := R) (T := T) (P := P) scan expected timeout =
        Except.error (Error.RxError e)) ∧
    AT_RESPONSE_BUFFER_SIZE = (str_bytes "WIFI GOT IP\r\n").length := by
  refine ⟨⟨rfl, rfl⟩, ?_, ?_, ?_, by decide⟩
  · unfold wait_for_at_response
    cases hs : scan AT_RESPONSE_BUFFER_SIZE timeout with
    | ok resp =>
      by_cases hr : resp = expected
      · subst hr
        simp

      · simp [hr, Ne.symm hr]
    | error e => simp
  · intro other hne hs
    unfold wait_for_at_response
    rw [hs]
    simp [hne]
  · intro e hs
    unfold wait_for_at_response
    rw [hs]

/-- Witness for C6: a scan classifying ERROR while OK is expected yields the
unexpected-response error carrying ERROR. -/
theorem wait_for_at_response_correct_witness :
    wait_for_at_response (R := Unit) (T := Unit) (P := Unit)
        (fun _ _ => Except.ok ATResponse.Error) ATResponse.Ok
        (Second.toMillisecond DEFAULT_TIMEOUT) =
      Except.error (Error.UnexpectedResponse ATResponse.Error) :=
  (wait_for_at_response_correct (fun _ _ => Except.ok ATResponse.Error)
      ATResponse.Ok (Second.toMillisecond DEFAULT_TIMEOUT)).2.2.1
    ATResponse.Error (by decide) rfl

/-- Timeout test used by the retry loop of `power_up` (lib.rs line 226): an
error aborts the loop immediately exactly when it is the receive timeout. -/
def is_startup_timeout {R T P : Type} : Error (serial.Error R) T P → Bool
  | Error.RxError serial.Error.TimedOut => true
  | _ => false

/-- The retry loop of `power_up` (lib.rs lines 222-237).  `attempts n` is the
outcome of the `n`-th call of `wait_for_got_ip` with the startup timeout.
The source counts `error_count` upward from 0 and retries a non-timeout
failure while `error_count < 255`; here the recursion is structural on the
retries that remain, `retries_left = 255 - error_count`. -/
def power_up_loop {R T P : Type}
    (attempts : Nat → Except (Error (serial.Error R) T P) Unit) :
    Nat → Nat → Except (Error (serial.Error R) T P) Unit
  | idx, retries_left =>
    match attempts idx with
    | Except.ok () => Except.ok ()
    | Except.error e =>
      if is_startup_timeout e then Except.error e
      else
        match retries_left with
        | 0 => Except.error e
        | r + 1 => power_up_loop attempts (idx + 1) r

/-- Embedding of `power_up` (lib.rs lines 217-244): drive chip enable high,
run the got-IP retry loop, then issue the echo-off command and require an
Ok.  `pin_high` is the outcome of `set_high` (`none` is success);
`attempts` gives the successive outcomes of `wait_for_got_ip`; `echo_send`
and `echo_ok` are the outcomes of `send_at_command E0` and of the following
`wait_for_ok`. -/
def power_up {R T P : Type} (pin_high : Option P)
    (attempts : Nat → Except (Error (serial.Error R) T P) Unit)
    (echo_send echo_ok : Except (Error (serial.Error R) T P) Unit) :
    Except (Error (serial.Error R) T P) Unit :=
  match pin_high with
  | some p => Except.error (Error.PinError p)
  | none =>
    match power_up_loop attempts 0 255 with
    | Except.error e => Except.error e
    | Except.ok () =>
      match echo_send with
      | Except.error e => Except.error e
      | Except.ok () => echo_ok

/-- If the first `m` attempts fail without a timeout and attempt `m` succeeds,
the loop succeeds, provided at least `m` retries remain. -/
lemma power_up_loop_ok {R T P : Type}
    (attempts : Nat → Except (Error (serial.Error R) T P) Unit) :
    ∀ (m idx retries : Nat), m ≤ retries →
    (∀ i < m, ∃ e, attempts (idx + i) = Except.error e ∧
        is_startup_timeout e = false) →
    attempts (idx + m) = Except.ok () →
    power_up_loop attempts idx retries = Except.ok () := by
  intro m
  induction m with
  | zero =>
    intro idx retries _ _ hok
    rw [Nat.add_zero] at hok
    unfold power_up_loop
    rw [hok]
  | succ k ih =>
    intro idx retries hle hfail hok
    obtain ⟨e, he, hnt⟩ := hfail 0 (Nat.succ_pos k)
    rw [Nat.add_zero] at he
    obtain ⟨r, rfl⟩ : ∃ r, retries = r + 1 := ⟨retries - 1, by omega⟩
    unfold power_up_loop
    rw [he]
    simp only [hnt, Bool.false_eq_true, if_false]
    exact ih (idx + 1) r (by omega)
      (fun i hi => by
        have := hfail (i + 1) (by omega)
        rwa [show idx + (i + 1) = idx + 1 + i by omega] at this)
      (by rwa [show idx + 1 + k = idx + (k + 1) by omega])

/-- If the first `m` attempts fail without a timeout and attempt `m` fails
with a timeout, the loop returns that timeout error, provided at least `m`
retries remain. -/
lemma power_up_loop_timeout {R T P : Type}
    (attempts : Nat → Except (Error (serial.Error R) T P) Unit) :
    ∀ (m idx retries : Nat), m ≤ retries →
    (∀ i < m, ∃ e, attempts (idx + i) = Except.error e ∧
        is_startup_timeout e = false) →
    ∀ e, attempts (idx + m) = Except.error e → is_startup_timeout e = true →
    power_up_loop attempts idx retries = Except.error e := by
  intro m
  induction m with
  | zero =>
    intro idx retries _ _ e he ht
    rw [Nat.add_zero] at he
    unfold power_up_loop
    rw [he]
    simp [ht]
  | succ k ih =>
    intro idx retries hle hfail e he ht
    obtain ⟨e0, he0, hnt0⟩ := hfail 0 (Nat.succ_pos k)
    rw [Nat.add_zero] at he0
    obtain ⟨r, rfl⟩ : ∃ r, retries = r + 1 := ⟨retries - 1, by omega⟩
    unfold power_up_loop
    rw [he0]
    simp only [hnt0, Bool.false_eq_true, if_false]
    exact ih (idx + 1) r (by omega)
      (fun i hi => by
        have := hfail (i + 1) (by omega)
        rwa [show idx + (i + 1) = idx + 1 + i by omega] at this)
      e (by rwa [show idx + 1 + k = idx + (k + 1) by omega]) ht

/-- C3: power_up tolerates up to 255 consecutive non-timeout failures of the
got-IP wait: when the 256th attempt succeeds (index 255) the whole power-up
still succeeds (with the echo-off exchange succeeding), while a
receive-timeout at any attempt, after only non-timeout failures, is returned
immediately without consuming retries. -/
theorem power_up_retry_policy {R T P : Type}
    (attempts : Nat → Except (Error (serial.Error R) T P) Unit)
    (echo_send echo_ok : Except (Error (serial.Error R) T P) Unit) :
    ((∀ i < 255, ∃ e, attempts i = Except.error e ∧
        is_startup_timeout e = false) →
      attempts 255 = Except.ok () →
      power_up none attempts (Except.ok ()) (Except.ok ()) = Except.ok ()) ∧
    (∀ k ≤ 255,
      (∀ i < k, ∃ e, attempts i = Except.error e ∧
          is_startup_timeout e = false) →
      ∀ e, attempts k = Except.error e → is_startup_timeout e = true →
      power_up none attempts echo_send echo_ok = Except.error e) := by
  constructor
  · intro hfail hok
    unfold power_up
    rw [power_up_loop_ok attempts 255 0 255 le_rfl
      (fun i hi => by simpa using hfail i hi) (by simpa using hok)]
  · intro k hk hfail e he ht
    unfold power_up
    rw [power_up_loop_timeout attempts k 0 255 hk
      (fun i hi => by simpa using hfail i hi) e (by simpa using he) ht]

/-- Witness for C3: 255 unexpected-response failures followed by a success on
the 256th attempt still power up successfully. -/
theorem power_up_retry_policy_witness :
    power_up (R := Unit) (T := Unit) (P := Unit) none
        (fun i => if i = 255 then Except.ok () else
          Except.error (Error.UnexpectedResponse ATResponse.Error))
        (Except.ok ()) (Except.ok ()) = Except.ok () :=
  (power_up_retry_policy
      (fun i => if i = 255 then Except.ok () else
        Except.error (Error.UnexpectedResponse ATResponse.Error))
      (Except.ok ()) (Except.ok ())).1
    (fun i hi => ⟨Error.UnexpectedResponse ATResponse.Error,
      by simp [Nat.ne_of_lt hi], rfl⟩)
    (by simp)

/-- Modelled from the spec: numeric-to-text formatting (the external itoa
utility crate) renders a number as decimal ASCII digits, most significant
first.  The fuel argument, taken as the number itself, bounds the digit
count and makes the recursion structural. -/
def decimal_digits_aux : Nat → Nat → List Nat
  | _, 0 => []
  | 0, _ => []
  | fuel + 1, n => decimal_digits_aux fuel (n / 10) ++ [n % 10 + 48]

/-- Decimal ASCII rendering of a number, with 0 rendered as the single digit
0 (modelled from the spec: the itoa utility crate). -/
def decimal (n : Nat) : List Nat :=
  if n = 0 then [48] else decimal_digits_aux n n

/-- Numbers below a power of ten render in at most that many digits. -/
lemma decimal_digits_aux_length :
    ∀ (fuel n k : Nat), n ≤ fuel → n < 10 ^ k →
      (decimal_digits_aux fuel n).length ≤ k := by
  intro fuel
  induction fuel with
  | zero =>
    intro n k h1 _
    have hn : n = 0 := by omega
    subst hn
    simp [decimal_digits_aux]
  | succ f ih =>
    intro n k h1 h2
    cases n with
    | zero => simp [decimal_digits_aux]
    | succ m =>
      have hk : k ≠ 0 := by
        intro hz
        subst hz
        simp at h2
      obtain ⟨j, rfl⟩ : ∃ j, k = j + 1 := ⟨k - 1, by omega⟩
      have hdiv : (m + 1) / 10 < 10 ^ j := by
        rw [Nat.div_lt_iff_lt_mul (by omega)]
        calc m + 1 < 10 ^ (j + 1) := h2
        _ = 10 ^ j * 10 := by ring
      have hfuel : (m + 1) / 10 ≤ f := by
        have := Nat.div_lt_self (Nat.succ_pos m) (by omega : 1 < 10)
        omega
      have hrec := ih ((m + 1) / 10) j hfuel hdiv
      show (decimal_digits_aux f ((m + 1) / 10) ++ [(m + 1) % 10 + 48]).length ≤ j + 1
      rw [List.length_append]
      simp
      omega

/-- Capacity of the port scratch buffer, the length of the biggest u16
(`PORT_STRING_LENGTH` in `start_tcp_connection`, lib.rs line 269). -/
def PORT_STRING_LENGTH : Nat := 5

/-- Embedding of `itoa::fmt` into a fixed-capacity ArrayString: the decimal
text when it fits the capacity, a formatting error otherwise. -/
def itoa_fmt (capacity n : Nat) : Except FmtError (List Nat) :=
  if (decimal n).length ≤ capacity then Except.ok (decimal n)
  else Except.error ⟨⟩

/-- C8: rendering any 16-bit port number as decimal text into the fixed
5-byte scratch buffer always succeeds (the error branch is unreachable for
every u16 input): 8080 renders as the text 8080, 65535 fills the buffer
exactly, and no u16 needs six or more digits. -/
theorem port_rendering_never_overflows (port : Nat) (h : port < 65536) :
    itoa_fmt PORT_STRING_LENGTH port = Except.ok (decimal port) ∧
    (decimal port).length ≤ PORT_STRING_LENGTH ∧
    decimal 8080 = str_bytes "8080" ∧
    (decimal 65535).length = PORT_STRING_LENGTH := by
  have hlen : (decimal port).length ≤ PORT_STRING_LENGTH := by
    unfold decimal PORT_STRING_LENGTH
    split
    · simp
    · exact decimal_digits_aux_length port port 5 le_rfl (by omega)
  refine ⟨?_, hlen, by decide, by decide⟩
  unfold itoa_fmt
  rw [if_pos hlen]

/-- Witness for C8: the largest u16 renders without overflow. -/
theorem port_rendering_never_overflows_witness :
    itoa_fmt PORT_STRING_LENGTH 65535 = Except.ok (decimal 65535) :=
  (port_rendering_never_overflows 65535 (by decide)).1

/-- All single-byte writes succeeding, a whole-slice write appends the slice
to the wire. -/
lemma write_all_ok {T : Type} (txErr : Nat → Option T)
    (h : ∀ i, txErr i = none) :
    ∀ (bytes tx : List Nat),
      write_all txErr tx bytes = (tx ++ bytes, Except.ok ()) := by
  intro bytes
  induction bytes with
  | nil => intro tx; simp [write_all]
  | cons b rest ih =>
    intro tx
    unfold write_all
    rw [h tx.length]
    rw [ih (tx ++ [b])]
    simp

/-- All single-byte writes succeeding, `send_raw` appends the slice to the
wire and succeeds. -/
lemma send_raw_ok {R T P : Type} (txErr : Nat → Option T)
    (h : ∀ i, txErr i = none) (tx bytes : List Nat) :
    send_raw (R := R) (T := T) (P := P) txErr tx bytes =
      (tx ++ bytes, Except.ok ()) := by
  unfold send_raw
  rw [write_all_ok txErr h bytes tx]

/-- Embedding of `start_tcp_connection` (lib.rs lines 261-282): render the
port as decimal text into the 5-byte scratch buffer (a formatting failure
would propagate before anything is sent), write the CIPSTART command
piecewise, then wait for Ok within the default timeout.  `scan` is the
response-scanner oracle of the final `wait_for_ok`. -/
def start_tcp_connection {R T P : Type} (txErr : Nat → Option T)
    (scan : Nat → Millisecond → Except (serial.Error R) ATResponse)
    (connection_type : ConnectionType) (address : List Nat) (port : Nat)
    (tx : List Nat) : List Nat × Except (Error (serial.Error R) T P) Unit :=
  match itoa_fmt PORT_STRING_LENGTH port with
  | Except.error e => (tx, Except.error (Error.Fmt e))
  | Except.ok port_str =>
    andThen (send_raw txErr tx (str_bytes "AT+CIPSTART=\"")) (fun tx1 =>
      andThen (send_raw txErr tx1 (str_bytes connection_type.as_str)) (fun tx2 =>
        andThen (send_raw txErr tx2 (str_bytes "\",\"")) (fun tx3 =>
          andThen (send_raw txErr tx3 address) (fun tx4 =>
            andThen (send_raw txErr tx4 (str_bytes "\",")) (fun tx5 =>
              andThen (send_raw txErr tx5 port_str) (fun tx6 =>
                andThen (send_raw txErr tx6 (str_bytes "\r\n")) (fun tx7 =>
                  (tx7, wait_for_ok scan
                    (Second.toMillisecond DEFAULT_TIMEOUT)))))))))

/-- C7: for every connection type, address and 16-bit port, the connect phase
transmits exactly AT+CIPSTART= followed by the quoted TCP or UDP word, the
quoted address, a comma, the port as decimal text (rendered into the fixed
5-byte scratch buffer) and CRLF, and then requires an Ok response within the
default timeout. -/
theorem start_tcp_connection_command {R T P : Type} (txErr : Nat → Option T)
    (scan : Nat → Millisecond → Except (serial.Error R) ATResponse)
    (connection_type : ConnectionType) (address : List Nat) (port : Nat)
    (tx : List Nat) (hok : ∀ i, txErr i = none) (hport : port < 65536) :
    start_tcp_connection (R := R) (T := T) (P := P) txErr scan
        connection_type address port tx =
      (tx ++ str_bytes "AT+CIPSTART=\"" ++ str_bytes connection_type.as_str ++
          str_bytes "\",\"" ++ address ++ str_bytes "\"," ++ decimal port ++
          str_bytes "\r\n",
        wait_for_ok scan (Second.toMillisecond DEFAULT_TIMEOUT)) := by
  unfold start_tcp_connection
  rw [(port_rendering_never_overflows port hport).1]
  simp [andThen, send_raw_ok txErr hok, List.append_assoc]

/-- Witness for C7: a concrete TCP connect command to 192.168.1.1 port
8080. -/
theorem start_tcp_connection_command_witness :
    start_tcp_connection (R := Unit) (T := Unit) (P := Unit) (fun _ => none)
        (fun _ _ => Except.ok ATResponse.Ok) ConnectionType.Tcp
        (str_bytes "192.168.1.1") 8080 [] =
      ([] ++ str_bytes "AT+CIPSTART=\"" ++
          str_bytes (ConnectionType.as_str ConnectionType.Tcp) ++
          str_bytes "\",\"" ++ str_bytes "192.168.1.1" ++ str_bytes "\"," ++
          decimal 8080 ++ str_bytes "\r\n",
        wait_for_ok (fun _ _ => Except.ok ATResponse.Ok)
          (Second.toMillisecond DEFAULT_TIMEOUT)) :=
  start_tcp_connection_command (fun _ => none)
    (fun _ _ => Except.ok ATResponse.Ok) ConnectionType.Tcp
    (str_bytes "192.168.1.1") 8080 [] (fun _ => rfl) (by decide)

/-- Embedding of `start_transmission` (lib.rs lines 284-295).  The source
asserts `message_length < 2048` before anything else; `none` in the second
component models that panic, which aborts before any bytes are written.  On
the non-panicking path the length is rendered into the 4-byte buffer and
the CIPSEND command is written. -/
def start_transmission {R T P : Type} (txErr : Nat → Option T)
    (message_length : Nat) (tx : List Nat) :
    List Nat × Option (Except (Error R T P) Unit) :=
  if message_length < 2048 then
    match itoa_fmt 4 message_length with
    | Except.error e => (tx, some (Except.error (Error.Fmt e)))
    | Except.ok length_buffer =>
      let p := andThen (send_raw txErr tx (str_bytes "AT+CIPSEND=")) (fun tx1 =>
        andThen (send_raw txErr tx1 length_buffer) (fun tx2 =>
          send_raw txErr tx2 (str_bytes "\r\n")))
      (p.1, some p.2)
  else
    (tx, none)

/-- C5: a payload of exactly 2047 bytes passes the length precondition and
the CIPSEND command is transmitted, while a payload of 2048 bytes or more
trips the assertion before any bytes of the send phase are written to the
transmitter. -/
theorem start_transmission_length_precondition {R T P : Type}
    (txErr : Nat → Option T) (tx : List Nat) (h : ∀ i, txErr i = none) :
    (start_transmission (R := R) (T := T) (P := P) txErr 2047 tx =
      (tx ++ str_bytes "AT+CIPSEND=" ++ decimal 2047 ++ str_bytes "\r\n",
        some (Except.ok ()))) ∧
    (∀ n, 2048 ≤ n →
      start_transmission (R := R) (T := T) (P := P) txErr n tx =
        (tx, none)) := by
  constructor
  · unfold start_transmission
    rw [if_pos (by omega)]
    have hfmt : itoa_fmt 4 2047 = Except.ok (decimal 2047) := rfl
    rw [hfmt]
    simp [andThen, send_raw_ok txErr h, List.append_assoc]
  · intro n hn
    unfold start_transmission
    rw [if_neg (by omega)]

/-- Witness for C5: the 2047-byte payload length renders and transmits. -/
theorem start_transmission_length_precondition_witness :
    start_transmission (R := Unit) (T := Unit) (P := Unit) (fun _ => none)
        2047 [] =
      ([] ++ str_bytes "AT+CIPSEND=" ++ decimal 2047 ++ str_bytes "\r\n",
        some (Except.ok ())) :=
  (start_transmission_length_precondition (fun _ => none) []
    (fun _ => rfl)).1

/-- Embedding of `close_connection` (lib.rs lines 192-195): send the CIPCLOSE
command, then wait for Ok within the default timeout. -/
def close_connection {R T P : Type} (txErr : Nat → Option T)
    (scan : Nat → Millisecond → Except (serial.Error R) ATResponse)
    (tx : List Nat) : List Nat × Except (Error (serial.Error R) T P) Unit :=
  andThen (send_at_command txErr tx "+CIPCLOSE") (fun tx1 =>
    (tx1, wait_for_ok scan (Second.toMillisecond DEFAULT_TIMEOUT)))

/-- Embedding of `send_data` (lib.rs lines 175-190) over its three phases:
the connect, send and close operations are state-transforming computations
on the transmitted-byte state, run in the source's order, each result
wrapped by `try_step` with its step tag and short-circuited by the `?`
operator (a short-circuited phase is never applied to the state). -/
def send_data {R T P σ : Type}
    (connect send close : σ → σ × Except (Error R T P) Unit) (s0 : σ) :
    σ × Except (TransmissionError R T P) Unit :=
  let (s1, r1) := connect s0
  match TransmissionError.try_step TransmissionStep.Connect r1 with
  | Except.error e => (s1, Except.error e)
  | Except.ok _ =>
    let (s2, r2) := send s1
    match TransmissionError.try_step TransmissionStep.Send r2 with
    | Except.error e => (s2, Except.error e)
    | Except.ok _ =>
      let (s3, r3) := close s2
      (s3, TransmissionError.try_step TransmissionStep.Close r3)

/-- C4: send_data runs the phases in the order Connect, Send, Close; a
failing phase short-circuits the remaining phases (they are never applied to
the state) and its error is tagged with exactly that phase; a close phase
whose scanner classifies ERROR yields a Close-tagged error wrapping
UnexpectedResponse(Error); and when all three phases succeed the result is
plain success with no step tag. -/
theorem send_data_steps {R T P σ : Type}
    (connect send close : σ → σ × Except (Error R T P) Unit) (s0 : σ) :
    (∀ s1 e, connect s0 = (s1, Except.error e) →
      send_data connect send close s0 =
        (s1, Except.error ⟨TransmissionStep.Connect, e⟩)) ∧
    (∀ s1 s2 e, connect s0 = (s1, Except.ok ()) →
      send s1 = (s2, Except.error e) →
      send_data connect send close s0 =
        (s2, Except.error ⟨TransmissionStep.Send, e⟩)) ∧
    (∀ s1 s2 s3 e, connect s0 = (s1, Except.ok ()) →
      send s1 = (s2, Except.ok ()) → close s2 = (s3, Except.error e) →
      send_data connect send close s0 =
        (s3, Except.error ⟨TransmissionStep.Close, e⟩)) ∧
    (∀ s1 s2 s3, connect s0 = (s1, Except.ok ()) →
      send s1 = (s2, Except.ok ()) → close s2 = (s3, Except.ok ()) →
      send_data connect send close s0 = (s3, Except.ok ())) ∧
    (∀ (R₂ T₂ P₂ : Type) (txE : Nat → Option T₂)
        (sc : Nat → Millisecond → Except (serial.Error R₂) ATResponse)
        (tx : List Nat), (∀ i, txE i = none) →
      sc AT_RESPONSE_BUFFER_SIZE (Second.toMillisecond DEFAULT_TIMEOUT) =
        Except.ok ATResponse.Error →
      (close_connection (R := R₂) (T := T₂) (P := P₂) txE sc tx).2 =
        Except.error (Error.UnexpectedResponse ATResponse.Error)) := by
  refine ⟨?_, ?_, ?_, ?_, ?_⟩
  · intro s1 e hc
    unfold send_data
    rw [hc]
    rfl
  · intro s1 s2 e hc hs
    unfold send_data
    rw [hc]
    show (let (s2', r2) := send s1; _ : σ × _) = _
    rw [hs]
    rfl
  · intro s1 s2 s3 e hc hs hcl
    unfold send_data
    rw [hc]
    show (let (s2', r2) := send s1; _ : σ × _) = _
    rw [hs]
    show (let (s3', r3) := close s2; _ : σ × _) = _
    rw [hcl]
    rfl
  · intro s1 s2 s3 hc hs hcl
    unfold send_data
    rw [hc]
    show (let (s2', r2) := send s1; _ : σ × _) = _
    rw [hs]
    show (let (s3', r3) := close s2; _ : σ × _) = _
    rw [hcl]
    rfl
  · intro R₂ T₂ P₂ txE sc tx hok hsc
    unfold close_connection send_at_command
    simp [andThen, send_raw_ok txE hok, wait_for_ok, wait_for_at_response,
      hsc]

/-- Witness for C4: with trivially succeeding connect and send phases and a
close phase whose scanner replies ERROR, the result is the Close-tagged
unexpected-response error. -/
theorem send_data_steps_witness :
    send_data (σ := List Nat)
        (fun tx => (tx, Except.ok ())) (fun tx => (tx, Except.ok ()))
        (close_connection (R := Unit) (T := Unit) (P := Unit) (fun _ => none)
          (fun _ _ => Except.ok ATResponse.Error)) [] =
      (str_bytes "AT+CIPCLOSE\r\n",
        Except.error ⟨TransmissionStep.Close,
          Error.UnexpectedResponse ATResponse.Error⟩) :=
  (send_data_steps (fun tx => (tx, Except.ok ()))
      (fun tx => (tx, Except.ok ()))
      (close_connection (fun _ => none)
        (fun _ _ => Except.ok ATResponse.Error)) []).2.2.1
    [] [] (str_bytes "AT+CIPCLOSE\r\n")
    (Error.UnexpectedResponse ATResponse.Error) rfl rfl rfl

/-- Embedding of `reset` (lib.rs lines 207-212): set chip enable low, start
the 10 ms timer and block on its wait, unwrapping the infallible result,
then power up.  `pin_low` is the outcome of `power_down`'s `set_low`;
`power_up_result` the outcome of the subsequent `power_up`. -/
def reset {R T P : Type} (pin_low : Option P)
    (timer_wait : Except Infallible Unit)
    (power_up_result : Except (Error (serial.Error R) T P) Unit) :
    Except (Error (serial.Error R) T P) Unit :=
  match pin_low with
  | some p => Except.error (Error.PinError p)
  | none =>
    let _ := unwrap_infallible timer_wait
    power_up_result

/-- Embedding of `pull_some_current` (lib.rs lines 246-252): pulse chip
enable high, block 500 ms on the timer wait, unwrapping the infallible
result, then set chip enable low. -/
def pull_some_current {R T P : Type} (pin_high : Option P)
    (timer_wait : Except Infallible Unit) (pin_low : Option P) :
    Except (Error (serial.Error R) T P) Unit :=
  match pin_high with
  | some p => Except.error (Error.PinError p)
  | none =>
    let _ := unwrap_infallible timer_wait
    match pin_low with
    | some p => Except.error (Error.PinError p)
    | none => Except.ok ()

/-- Counterexample to C9 as stated: an engine operation can fail by crashing
rather than by returning an error value, and the crash is not the reset
delay's timer unwrap: a payload length of 2048 trips the assertion in
start_transmission (the `none` marks the panic). -/
theorem start_transmission_panics_at_2048 :
    start_transmission (R := Unit) (T := Unit) (P := Unit)
      (fun _ => none) 2048 [] = ([], none) := rfl

/-- C9 amended: every failure of the modelled engine operations is a returned
error value, except that the payload-length assertion in start_transmission
panics exactly when the payload is 2048 bytes or longer (writing nothing),
and the unwraps on the reset and pull_some_current timer waits have an
uninhabited error type, so their error cases are unreachable: every wait
outcome is Ok, the unwrap is total, and the wait outcome cannot influence
either operation. -/
theorem engine_failure_reporting {R T P : Type} :
    (∀ (txErr : Nat → Option T) (n : Nat) (tx : List Nat),
      (start_transmission (R := R) (T := T) (P := P) txErr n tx).2 = none ↔
        2048 ≤ n) ∧
    (∀ w : Except Infallible Unit,
      unwrap_infallible w = () ∧ w = Except.ok ()) ∧
    (∀ (pin_low : Option P) (w w' : Except Infallible Unit)
        (pu : Except (Error (serial.Error R) T P) Unit),
      reset pin_low w pu = reset pin_low w' pu) ∧
    (∀ (ph pl : Option P) (w w' : Except Infallible Unit),
      pull_some_current (R := serial.Error R) (T := T) ph w pl =
        pull_some_current ph w' pl) := by
  refine ⟨?_, ?_, ?_, ?_⟩
  · intro txErr n tx
    unfold start_transmission
    by_cases h : n < 2048
    · rw [if_pos h]
      cases hfmt : itoa_fmt 4 n with
      | error e => simp; omega
      | ok lb => simp [hfmt]; omega
    · rw [if_neg h]
      simp
      omega
  · intro w
    cases w with
    | ok a => cases a; exact ⟨rfl, rfl⟩
    | error e => exact nomatch e
  · intro pin_low w w' pu
    cases w with
    | ok a => cases w' with
      | ok a' => rfl
      | error e => exact nomatch e
    | error e => exact nomatch e
  · intro ph pl w w'
    cases w with
    | ok a => cases w' with
      | ok a' => rfl
      | error e => exact nomatch e
    | error e => exact nomatch e

end Esp01
